import Mathlib

/-!
Shallow embedding of the `yuga` market-making bot, faithful to the Python
source under `src/yuga/`.  Prices, sizes and timestamps are modelled as
rationals; statuses, sides and identifiers as strings.  Each section embeds
the functions one group of claims is about, keeping the source's names and
control flow.
-/

namespace Yuga

/-- A price level `(price, size)` as in the Python `(float, float)` tuples. -/
abbrev Level := ℚ × ℚ

/-! ### Order book snapshots (`strategy/market_maker.py`) -/

/-- `OrderBookSnapshot` from `strategy/market_maker.py`. -/
structure OrderBookSnapshot where
  token_id : String
  outcome : String
  bids : List Level
  asks : List Level
  timestamp : ℚ
deriving Repr, DecidableEq

/-- Stable insertion of a level into a list sorted by descending price,
mirroring Python's stable `list.sort(key=price, reverse=True)`. -/
def insertDescBy (x : Level) : List Level → List Level
  | [] => [x]
  | y :: ys => if y.1 ≤ x.1 then x :: y :: ys else y :: insertDescBy x ys

/-- `bids.sort(key=lambda x: x[0], reverse=True)`: stable descending sort. -/
def sortDescBy (l : List Level) : List Level :=
  l.foldr insertDescBy []

/-- Stable insertion of a level into a list sorted by ascending price. -/
def insertAscBy (x : Level) : List Level → List Level
  | [] => [x]
  | y :: ys => if x.1 ≤ y.1 then x :: y :: ys else y :: insertAscBy x ys

/-- `asks.sort(key=lambda x: x[0])`: stable ascending sort. -/
def sortAscBy (l : List Level) : List Level :=
  l.foldr insertAscBy []

/-- `MarketState` from `strategy/market_maker.py`, restricted to the fields
`update_book` touches. -/
structure MarketState where
  yes_token_id : String
  no_token_id : String
  yes_book : Option OrderBookSnapshot
  no_book : Option OrderBookSnapshot
deriving Repr, DecidableEq

/-- The `book_data` dict built by `Engine._on_book_update`: each key either
present (with its list of levels) or absent. -/
structure BookData where
  bids : Option (List Level)
  asks : Option (List Level)
deriving Repr, DecidableEq

/-- `MarketMakerEngine.update_book` applied to one market: if the token is the
market's YES token the fresh snapshot replaces `yes_book`; if it is the NO
token it replaces `no_book`; otherwise the market is unchanged.  The snapshot
is built from the payload alone: `book_data.get("bids", [])` and
`book_data.get("asks", [])`, sorted. -/
def mkSnapshot (token_id : String) (outcome : String) (data : BookData) (now : ℚ) :
    OrderBookSnapshot :=
  { token_id := token_id
    outcome := outcome
    bids := sortDescBy (data.bids.getD [])
    asks := sortAscBy (data.asks.getD [])
    timestamp := now }

/-- `MarketMakerEngine.update_book` over the market list: Python iterates
`self.markets.values()`, installs the snapshot at the first market whose
YES or NO token id matches, and returns.  Returns the updated market list. -/
def update_book (markets : List MarketState) (token_id : String)
    (data : BookData) (now : ℚ) : List MarketState :=
  match markets with
  | [] => []
  | mkt :: rest =>
    if mkt.yes_token_id = token_id then
      { mkt with yes_book := some (mkSnapshot token_id "YES" data now) } :: rest
    else if mkt.no_token_id = token_id then
      { mkt with no_book := some (mkSnapshot token_id "NO" data now) } :: rest
    else
      mkt :: update_book rest token_id data now

/-- A WebSocket book-update payload as read by `Engine._on_book_update`:
any of the four level fields may be present. -/
structure WsUpdate where
  asset_id : String
  bids : Option (List Level)
  asks : Option (List Level)
  buys : Option (List Level)
  sells : Option (List Level)
deriving Repr, DecidableEq

/-- The `book_data` dict that `Engine._on_book_update` builds: `bids` is set
from `"bids"` then overwritten by `"buys"` when present, and `asks` from
`"asks"` then `"sells"`. -/
def buildBookData (u : WsUpdate) : BookData :=
  { bids := u.buys.orElse (fun _ => u.bids)
    asks := u.sells.orElse (fun _ => u.asks) }

/-- `Engine._on_book_update`: skip when `asset_id` is empty or the built
`book_data` dict is empty (falsy); otherwise forward to `update_book`. -/
def on_book_update (markets : List MarketState) (u : WsUpdate) (now : ℚ) :
    List MarketState :=
  if u.asset_id = "" then markets
  else
    let data := buildBookData u
    if data.bids = none ∧ data.asks = none then markets
    else update_book markets u.asset_id data now

/-! ### Quote reconciliation (`execution/controller.py`) -/

/-- `OrderRecord` from `execution/controller.py`, restricted to the fields
`_should_keep` and the lifecycle functions read. -/
structure OrderRecord where
  id : String
  side : String
  price : ℚ
  size : ℚ
  filled_size : ℚ
  status : String
  created_at : ℚ
deriving Repr, DecidableEq

/-- `QuoteOrder` from `strategy/market_maker.py`. -/
structure QuoteOrder where
  token_id : String
  outcome : String
  side : String
  price : ℚ
  size : ℚ
deriving Repr, DecidableEq

/-- `ExecutionController._should_keep`, line for line: the live quote is kept
only when its status is OPEN or PARTIAL, its size matches the desired size to
within `1e-6`, its price is positive, the price drift in basis points is
strictly below `reprice_threshold_bps`, and its age does not exceed
`quote_ttl_ms / 1000` seconds. -/
def should_keep (reprice_threshold_bps : ℚ) (quote_ttl_ms : ℚ) (now : ℚ)
    (existing : OrderRecord) (desired : QuoteOrder) : Bool :=
  if ¬(existing.status = "OPEN" ∨ existing.status = "PARTIAL") then false
  else if |existing.size - desired.size| > 1 / 1000000 then false
  else if existing.price ≤ 0 then false
  else if |existing.price - desired.price| / existing.price * 10000
      ≥ reprice_threshold_bps then false
  else if now - existing.created_at > quote_ttl_ms / 1000 then false
  else true

/-- One reconciliation action taken by `sync_quotes` for a quote key. -/
inductive QuoteAction where
  | cancel (orderId : String)
  | place (q : QuoteOrder)
deriving Repr, DecidableEq

/-- The body of the `for order in adjusted.orders` loop of
`ExecutionController.sync_quotes` for one desired order whose key already has
a live order `existing`: if `_should_keep` holds the loop `continue`s (no
action); otherwise the live order is cancelled and a new one placed. -/
def reconcile_existing (reprice_threshold_bps quote_ttl_ms now : ℚ)
    (existing : OrderRecord) (desired : QuoteOrder) : List QuoteAction :=
  if should_keep reprice_threshold_bps quote_ttl_ms now existing desired then []
  else [QuoteAction.cancel existing.id, QuoteAction.place desired]

/-! ### Risk manager (`risk/manager.py`) -/

/-- `CircuitBreaker` from `risk/manager.py`. -/
structure CircuitBreaker where
  triggered : Bool
  triggered_at : ℚ
  cooldown_s : ℚ
  reason : String
deriving Repr, DecidableEq

/-- `CircuitBreaker.is_active` evaluated at time `now`: the breaker is active
when it is triggered and the elapsed time since the trip does not exceed the
cooldown.  (The Python property also clears `triggered` lazily on expiry; the
returned truth value is what matters here.) -/
def is_active (cb : CircuitBreaker) (now : ℚ) : Bool :=
  if ¬cb.triggered then false
  else if now - cb.triggered_at > cb.cooldown_s then false
  else true

/-- `RiskConfig` fields read by `RiskManager.check_signal`. -/
structure RiskConfig where
  max_daily_loss_usdc : ℚ
  max_consecutive_losses : ℕ
  max_total_exposure_usdc : ℚ
  max_per_market_exposure_usdc : ℚ
  max_open_orders : ℕ
deriving Repr, DecidableEq

/-- The mutable state of `RiskManager` that `check_signal` reads. -/
structure RiskState where
  breaker : CircuitBreaker
  consecutive_losses : ℕ
  daily_pnl : ℚ
  daily_reset_date : String
deriving Repr, DecidableEq

/-- The signal fields `check_signal` reads (`ArbSignal`/`QuoteSignal`). -/
structure SignalData where
  market_id : String
  yes_price : ℚ
  no_price : ℚ
  max_size : ℚ
deriving Repr, DecidableEq

/-- The database queries `check_signal` awaits, passed in as an environment. -/
structure RiskEnv where
  total_exposure : ℚ
  market_exposure : ℚ
  open_orders : ℕ
deriving Repr, DecidableEq

/-- `RiskManager._maybe_reset_daily`: reset daily PnL and the consecutive-loss
counter when the calendar date changed. -/
def maybe_reset_daily (st : RiskState) (today : String) : RiskState :=
  if st.daily_reset_date ≠ today then
    { st with daily_pnl := 0, daily_reset_date := today, consecutive_losses := 0 }
  else st

/-- `RiskManager._trip_circuit_breaker`. -/
def trip_circuit_breaker (st : RiskState) (reason : String) (now : ℚ) : RiskState :=
  { st with breaker :=
      { st.breaker with triggered := true, triggered_at := now, reason := reason } }

/-- `RiskManager.check_signal`: the checks in source order, each rejection
short-circuiting, returning the `(allowed, reason-code)` verdict and the
updated risk state (the breaker may trip). -/
def check_signal (cfg : RiskConfig) (st : RiskState) (sig : SignalData)
    (env : RiskEnv) (now : ℚ) (today : String) :
    (Bool × String) × RiskState :=
  if is_active st.breaker now then
    ((false, "CIRCUIT_BREAKER"), st)
  else
    let st := maybe_reset_daily st today
    if st.daily_pnl ≤ -cfg.max_daily_loss_usdc then
      ((false, "DAILY_LOSS"), trip_circuit_breaker st "Daily loss limit exceeded" now)
    else if st.consecutive_losses ≥ cfg.max_consecutive_losses then
      ((false, "CONSEC_LOSSES"), trip_circuit_breaker st "consecutive losses" now)
    else
      let order_cost := sig.yes_price * sig.max_size + sig.no_price * sig.max_size
      if env.total_exposure + order_cost > cfg.max_total_exposure_usdc then
        ((false, "TOTAL_EXPOSURE"), st)
      else if env.market_exposure + order_cost > cfg.max_per_market_exposure_usdc then
        ((false, "MARKET_EXPOSURE"), st)
      else if env.open_orders ≥ cfg.max_open_orders then
        ((false, "MAX_ORDERS"), st)
      else
        ((true, "OK"), st)

/-- `RiskManager.reset_circuit_breaker`: unconditionally clear `triggered` and
`reason` (leaving `triggered_at` as it was). -/
def reset_circuit_breaker (st : RiskState) : RiskState :=
  { st with breaker := { st.breaker with triggered := false, reason := "" } }

/-- The slice of `Engine` state that `Engine.resume` touches. -/
structure EngineState where
  paused : Bool
  risk : RiskState
deriving Repr, DecidableEq

/-- `Engine.resume`: clear the executor's paused flag and manually reset the
circuit breaker. -/
def resume (st : EngineState) : EngineState :=
  { st with paused := false, risk := reset_circuit_breaker st.risk }

/-! ### Fill accounting (`ExecutionController._apply_fill`) -/

/-- A position entry of `ExecutionController._positions`. -/
structure Position where
  size : ℚ
  avg_price : ℚ
deriving Repr, DecidableEq

/-- `ExecutionController._apply_fill` restricted to its position and PnL
arithmetic: given the order's side and price and the fill delta, return the
new position and the realized-PnL delta added to `_cumulative_pnl` and
`_spread_capture_pnl`.  A non-positive delta returns early with no change. -/
def apply_fill (pos : Position) (side : String) (price filled : ℚ) :
    Position × ℚ :=
  if filled ≤ 0 then (pos, 0)
  else
    let signed := if side = "BUY" then filled else -filled
    let new_size := pos.size + signed
    let avg_price :=
      if side = "BUY" ∧ new_size ≠ 0 then
        (pos.size * pos.avg_price + filled * price) / new_size
      else if new_size ≠ 0 then pos.avg_price else 0
    (⟨new_size, avg_price⟩, filled * price * (if side = "SELL" then 1 else -1))

/-- One fill event: the order's side and price and the filled delta. -/
structure Fill where
  side : String
  price : ℚ
  filled : ℚ
deriving Repr, DecidableEq

/-- The position reached by applying a sequence of fills to the empty
position (`{"size": 0.0, "avg_price": 0.0}` default in `_apply_fill`). -/
def apply_fills (fills : List Fill) : Position :=
  fills.foldl (fun pos f => (apply_fill pos f.side f.price f.filled).1) ⟨0, 0⟩

/-! ### Terminal order statuses (`execution/controller.py`) -/

/-- The terminal status set named by the spec. -/
def terminalStatus (s : String) : Bool :=
  s = "FILLED" ∨ s = "CANCELLED" ∨ s = "REJECTED"

/-- The status effect of `ExecutionController._cancel_order` on one order:
on a successful CLOB cancel the status becomes CANCELLED; when the cancel
raises, the status is untouched. -/
def cancel_order_status (cancelOk : Bool) (s : String) : String :=
  if cancelOk then "CANCELLED" else s

/-- The status effect of `ExecutionController.cancel_all` on one order in
`recent_orders`: when the bulk cancel succeeds, orders whose status is OPEN or
PENDING become CANCELLED and all others are untouched; when it raises, nothing
changes. -/
def cancel_all_status (bulkOk : Bool) (s : String) : String :=
  if bulkOk then (if s = "OPEN" ∨ s = "PENDING" then "CANCELLED" else s)
  else s

/-- The `/order/{id}` response fields `refresh_open_orders` reads. -/
structure OrderResp where
  status : String
  size_matched : ℚ
deriving Repr, DecidableEq

/-- The status effect of one iteration of
`ExecutionController.refresh_open_orders` on an active quote order: orders
not OPEN or PARTIAL are skipped; orders past the quote TTL are cancelled
(via `_cancel_order`, which may fail and leave the status); otherwise the
CLOB response (or `none` when `get_order` raises) drives the transition to
FILLED, PARTIAL or CANCELLED. -/
def refresh_order_status (order : OrderRecord) (now quote_ttl_ms : ℚ)
    (cancelOk : Bool) (resp : Option OrderResp) : String :=
  if ¬(order.status = "OPEN" ∨ order.status = "PARTIAL") then order.status
  else if now - order.created_at > quote_ttl_ms / 1000 then
    cancel_order_status cancelOk order.status
  else
    match resp with
    | none => order.status
    | some r =>
      let filled := r.size_matched
      if r.status = "MATCHED" ∨ filled ≥ order.size then "FILLED"
      else if filled > 0 then "PARTIAL"
      else if r.status = "CANCELLED" ∨ r.status = "EXPIRED" then "CANCELLED"
      else order.status

/-! ### REST client retry behaviour (`ingestion/clob_client.py`) -/

/-- One transport-level outcome for an attempted HTTP request. -/
inductive HttpEvent where
  | status (code : ℕ) (body : String)
  | netError (msg : String)
deriving Repr, DecidableEq

/-- `CLOBClient._get` run against a script of transport outcomes (one per
attempt): a 429 sleeps one second and re-invokes `_get` on the next outcome;
any status at or above 400 raises via `raise_for_status`; a transport error
raises; success returns the body together with the number of retries that
were performed. -/
def clob_get : List HttpEvent → ℕ → Except String (String × ℕ)
  | [], _ => Except.error "connection failed"
  | HttpEvent.status code body :: rest, retries =>
    if code = 429 then clob_get rest (retries + 1)
    else if code ≥ 400 then Except.error ("HTTP " ++ toString code)
    else Except.ok (body, retries)
  | HttpEvent.netError msg :: _, _ => Except.error msg

/-- `CLOBClient._post`: no special handling for 429 — `raise_for_status`
raises on any status at or above 400; transport errors raise. -/
def clob_post : List HttpEvent → Except String String
  | [] => Except.error "connection failed"
  | HttpEvent.status code body :: _ =>
    if code ≥ 400 then Except.error ("HTTP " ++ toString code)
    else Except.ok body
  | HttpEvent.netError msg :: _ => Except.error msg

/-! ### Quote generation (`MarketMakerEngine._quote_market`) -/

namespace OrderBookSnapshot

/-- `OrderBookSnapshot.best_bid`: top bid price, 0 when no bids. -/
def best_bid (b : OrderBookSnapshot) : ℚ :=
  match b.bids with
  | [] => 0
  | l :: _ => l.1

/-- `OrderBookSnapshot.best_ask`: top ask price, 1.0 when no asks. -/
def best_ask (b : OrderBookSnapshot) : ℚ :=
  match b.asks with
  | [] => 1
  | l :: _ => l.1

/-- `OrderBookSnapshot.best_bid_size`. -/
def best_bid_size (b : OrderBookSnapshot) : ℚ :=
  match b.bids with
  | [] => 0
  | l :: _ => l.2

/-- `OrderBookSnapshot.best_ask_size`. -/
def best_ask_size (b : OrderBookSnapshot) : ℚ :=
  match b.asks with
  | [] => 0
  | l :: _ => l.2

/-- `OrderBookSnapshot.mid`: the midpoint when both sides are present,
otherwise Python's `best_bid or best_ask`. -/
def mid (b : OrderBookSnapshot) : ℚ :=
  if b.bids ≠ [] ∧ b.asks ≠ [] then (b.best_bid + b.best_ask) / 2
  else if b.best_bid ≠ 0 then b.best_bid else b.best_ask

end OrderBookSnapshot

/-- Round a rational to the nearest integer, ties to even — the behaviour of
Python 3's `round` (float representation effects are outside the model; no
quantity in these claims sits on a tie). -/
def roundHalfEven (x : ℚ) : ℤ :=
  let f := ⌊x⌋
  if x - f < 1 / 2 then f
  else if x - f > 1 / 2 then f + 1
  else if f % 2 = 0 then f else f + 1

/-- The `_px` helper of `_quote_market`: clamp to `[0.01, 0.99]` then round to
three decimals. -/
def px3 (p : ℚ) : ℚ :=
  (roundHalfEven (min (max p (1 / 100)) (99 / 100) * 1000) : ℚ) / 1000

/-- `skew_ratio` as computed in `_quote_market`:
`min(skew / inventory_limit, 1.0)` when the limit is positive, else 0, with
`skew = max(|yes_pos|, |no_pos|)`. -/
def skew_ratio (yes_pos no_pos inventory_limit : ℚ) : ℚ :=
  if inventory_limit > 0 then min (max |yes_pos| |no_pos| / inventory_limit) 1
  else 0

/-- `spread_scale = 1.0 + skew_ratio`. -/
def spread_scale (r : ℚ) : ℚ := 1 + r

/-- `size_scale = max(0.2, 1.0 - skew_ratio)`. -/
def size_scale (r : ℚ) : ℚ := max (1 / 5) (1 - r)

/-- `half_spread = (quote_spread_bps / 20000) * mid * spread_scale`. -/
def half_spread (quote_spread_bps midPrice scale : ℚ) : ℚ :=
  quote_spread_bps / 20000 * midPrice * scale

/-- The quote `_quote_market` emits when it does not bail out. -/
structure QuoteResult where
  yes_bid : ℚ
  yes_ask : ℚ
  no_bid : ℚ
  no_ask : ℚ
  max_size : ℚ
  spread_bps : ℚ
deriving Repr, DecidableEq

/-- `MarketMakerEngine._quote_market` on a market whose YES and NO books are
present: the liquidity gate, the inventory-skew adjustments, the four clamped
and rounded prices, the crossed-quote guard, and the scaled size. -/
def quote_market (quote_spread_bps min_liquidity : ℚ)
    (yes_book no_book : OrderBookSnapshot)
    (yes_pos no_pos inventory_limit : ℚ) : Option QuoteResult :=
  let yes_liq := min yes_book.best_bid_size yes_book.best_ask_size * yes_book.mid
  let no_liq := min no_book.best_bid_size no_book.best_ask_size * no_book.mid
  if min yes_liq no_liq < min_liquidity then none
  else
    let r := skew_ratio yes_pos no_pos inventory_limit
    let hsYes := half_spread quote_spread_bps yes_book.mid (spread_scale r)
    let hsNo := half_spread quote_spread_bps no_book.mid (spread_scale r)
    let yes_bid := px3 (yes_book.mid - hsYes)
    let yes_ask := px3 (yes_book.mid + hsYes)
    let no_bid := px3 (no_book.mid - hsNo)
    let no_ask := px3 (no_book.mid + hsNo)
    if yes_bid ≥ yes_ask ∨ no_bid ≥ no_ask then none
    else
      let max_sz :=
        min (min yes_book.best_bid_size yes_book.best_ask_size)
            (min no_book.best_bid_size no_book.best_ask_size) * size_scale r
      some { yes_bid := yes_bid, yes_ask := yes_ask
             no_bid := no_bid, no_ask := no_ask
             max_size := max_sz
             spread_bps := (yes_ask - yes_bid) / max yes_bid (1 / 10000) * 10000 }

/-! ### Theorems -/

/-- C3: whenever the circuit breaker is active at check time, `check_signal`
returns `(false, _)` for every candidate signal, whatever the configuration,
risk counters, exposures and open-order count — the breaker rejection has
priority over all other checks. -/
theorem C3_breaker_rejects_all (cfg : RiskConfig) (st : RiskState)
    (sig : SignalData) (env : RiskEnv) (now : ℚ) (today : String)
    (h : is_active st.breaker now = true) :
    ((check_signal cfg st sig env now today).1).1 = false := by
  simp [check_signal, h]

/-- C3 witness: a concrete tripped breaker inside its cooldown rejects a
concrete signal. -/
theorem C3_breaker_rejects_all_witness :
    is_active (CircuitBreaker.mk true 0 300 "loss") 10 = true ∧
    ((check_signal ⟨100, 5, 1000, 200, 20⟩
        ⟨⟨true, 0, 300, "loss"⟩, 0, 0, "2026-10-12"⟩
        ⟨"m1", 1/2, 1/2, 10⟩ ⟨0, 0, 0⟩ 10 "2026-10-12").1).1 = false :=
  ⟨by norm_num [is_active],
   C3_breaker_rejects_all ⟨100, 5, 1000, 200, 20⟩
     ⟨⟨true, 0, 300, "loss"⟩, 0, 0, "2026-10-12"⟩
     ⟨"m1", 1/2, 1/2, 10⟩ ⟨0, 0, 0⟩ 10 "2026-10-12" (by norm_num [is_active])⟩

/-- C10: `Engine.resume` clears the paused flag and unconditionally resets the
circuit breaker — for every prior state and every time `now` (in particular
while a trip's cooldown has not elapsed) the breaker is inactive afterwards
and its reason is cleared, so the risk gate's halt is lifted. -/
theorem C10_resume_resets_breaker (st : EngineState) (now : ℚ) :
    (resume st).paused = false ∧
    is_active (resume st).risk.breaker now = false ∧
    (resume st).risk.breaker.reason = "" := by
  refine ⟨rfl, ?_, rfl⟩
  simp [resume, reset_circuit_breaker, is_active]

/-- C4: for every position and every fill delta `d > 0` at price `p`,
a BUY adds `d` to the size, sets the average price to
`(old_size*old_avg + d*p)/new_size` when the new size is nonzero (0 when it
is zero), and adds `-(d*p)` to the PnL counters; a SELL subtracts `d`,
leaves the average unchanged (0 when the new size is zero), and adds `d*p`. -/
theorem C4_apply_fill_cases (pos : Position) (p d : ℚ) (hd : 0 < d) :
    apply_fill pos "BUY" p d =
      (⟨pos.size + d,
        if pos.size + d ≠ 0 then (pos.size * pos.avg_price + d * p) / (pos.size + d)
        else 0⟩, -(d * p)) ∧
    apply_fill pos "SELL" p d =
      (⟨pos.size - d, if pos.size - d ≠ 0 then pos.avg_price else 0⟩, d * p) := by
  constructor
  · simp only [apply_fill, not_le.mpr hd, if_false]
    split_ifs with h1 h2 <;> simp_all
  · simp only [apply_fill, not_le.mpr hd, if_false]
    split_ifs with h1 h2 <;> simp_all [sub_eq_add_neg]

/-- C4 witness: a SELL fill of delta 4 at price 0.55 applied to the empty
position yields size −4 and realized-PnL delta +2.20. -/
theorem C4_apply_fill_cases_witness :
    apply_fill ⟨0, 0⟩ "SELL" (11/20) 4 = (⟨-4, 0⟩, 11/5) := by
  have h := (C4_apply_fill_cases ⟨0, 0⟩ (11/20) 4 (by norm_num)).2
  rw [h]; norm_num

/-- C6: an order whose status is terminal (FILLED, CANCELLED or REJECTED)
stays terminal under every controller operation: the refresh loop, a
reconciliation cancel, and `cancel_all` (whether or not the underlying CLOB
call succeeds, and whatever the CLOB response). -/
theorem C6_terminal_stays_terminal (order : OrderRecord) (now ttl : ℚ)
    (cancelOk bulkOk : Bool) (resp : Option OrderResp)
    (h : terminalStatus order.status = true) :
    terminalStatus (refresh_order_status order now ttl cancelOk resp) = true ∧
    terminalStatus (cancel_order_status cancelOk order.status) = true ∧
    terminalStatus (cancel_all_status bulkOk order.status) = true := by
  simp only [terminalStatus, decide_eq_true_eq] at h
  refine ⟨?_, ?_, ?_⟩
  · have hskip : ¬(order.status = "OPEN" ∨ order.status = "PARTIAL") := by
      rcases h with h | h | h <;> simp [h]
    simp only [refresh_order_status, hskip, if_neg, if_false]
    simp [terminalStatus, h]
  · cases cancelOk <;> simp [cancel_order_status, terminalStatus, h]
  · have hskip : ¬(order.status = "OPEN" ∨ order.status = "PENDING") := by
      rcases h with h | h | h <;> simp [h]
    cases bulkOk <;> simp [cancel_all_status, hskip, terminalStatus, h]

/-- C6 witness: a FILLED order stays terminal under a refresh whose CLOB
response says CANCELLED, under a failed cancel, and under `cancel_all`. -/
theorem C6_terminal_stays_terminal_witness :
    terminalStatus "FILLED" = true ∧
    terminalStatus (refresh_order_status
      ⟨"o1", "BUY", 1/2, 10, 0, "FILLED", 0⟩ 100 15000 false
      (some ⟨"CANCELLED", 0⟩)) = true ∧
    terminalStatus (cancel_order_status false "FILLED") = true ∧
    terminalStatus (cancel_all_status true "FILLED") = true := by
  have h := C6_terminal_stays_terminal ⟨"o1", "BUY", 1/2, 10, 0, "FILLED", 0⟩
    100 15000 false true (some ⟨"CANCELLED", 0⟩) (by decide)
  exact ⟨by decide, h.1, h.2.1, h.2.2⟩

/-- One `_apply_fill` step preserves "zero size forces zero average":
when the resulting size is zero the code writes `avg_price = 0` in every
branch, and a non-positive delta leaves the position unchanged. -/
lemma apply_fill_zero_size (pos : Position) (s : String) (p d : ℚ)
    (hP : pos.size = 0 → pos.avg_price = 0) :
    ((apply_fill pos s p d).1).size = 0 → ((apply_fill pos s p d).1).avg_price = 0 := by
  by_cases hle : d ≤ 0
  · simpa [apply_fill, hle] using hP
  · simp only [apply_fill, hle, if_false]
    intro h0
    simp only [h0] at *
    split_ifs with h1 h2 <;> simp_all

/-- Folding fills preserves "zero size forces zero average" from any start. -/
lemma apply_fills_from_zero_size (fills : List Fill) :
    ∀ pos : Position, (pos.size = 0 → pos.avg_price = 0) →
      ((fills.foldl (fun pos f => (apply_fill pos f.side f.price f.filled).1) pos).size = 0 →
       (fills.foldl (fun pos f => (apply_fill pos f.side f.price f.filled).1) pos).avg_price = 0) := by
  induction fills with
  | nil => intro pos hP; simpa using hP
  | cons f rest ih =>
    intro pos hP
    simpa using ih ((apply_fill pos f.side f.price f.filled).1)
      (apply_fill_zero_size pos f.side f.price f.filled hP)

/-- C5 counterexample: the claimed equivalence "avg_price = 0 iff size = 0"
fails on a reachable position: a single SELL fill of 5 at 0.55 from the empty
position ends at size −5 with avg_price exactly 0. -/
theorem C5_counterexample :
    (apply_fills [⟨"SELL", 11/20, 5⟩]).avg_price = 0 ∧
    (apply_fills [⟨"SELL", 11/20, 5⟩]).size ≠ 0 := by
  norm_num [apply_fills, apply_fill]
  constructor
  · intro h; simp at h
  · simp

/-- C5 (amended): for every position reachable through applied fills from the
empty position, size = 0 implies avg_price = 0 (the converse is refuted by
`C5_counterexample`); in particular +5 then −5 ends with avg_price exactly 0. -/
theorem C5_zero_size_zero_avg (fills : List Fill)
    (h : (apply_fills fills).size = 0) : (apply_fills fills).avg_price = 0 :=
  apply_fills_from_zero_size fills ⟨0, 0⟩ (fun _ => rfl) h

/-- C5 witness: buying 5 at 0.50 then selling 5 at 0.50 returns the position
to size 0, and the theorem yields avg_price = 0 there. -/
theorem C5_zero_size_zero_avg_witness :
    (apply_fills [⟨"BUY", 1/2, 5⟩, ⟨"SELL", 1/2, 5⟩]).avg_price = 0 :=
  C5_zero_size_zero_avg [⟨"BUY", 1/2, 5⟩, ⟨"SELL", 1/2, 5⟩]
    (by norm_num [apply_fills, apply_fill]; simp)

/-- `_get` against `k` consecutive 429 responses followed by a success:
every 429 triggers another retry, so the call succeeds after `k` retries. -/
lemma clob_get_replicate_429 (k : ℕ) :
    ∀ (n : ℕ) (body : String) (rest : List HttpEvent),
      clob_get (List.replicate k (HttpEvent.status 429 "") ++
        HttpEvent.status 200 body :: rest) n = Except.ok (body, n + k) := by
  induction k with
  | zero => intro n body rest; simp [clob_get]
  | succ k ih =>
    intro n body rest
    have h : List.replicate (k + 1) (HttpEvent.status 429 "") ++
        HttpEvent.status 200 body :: rest
        = HttpEvent.status 429 "" :: (List.replicate k (HttpEvent.status 429 "") ++
          HttpEvent.status 200 body :: rest) := by
      simp [List.replicate_succ]
    rw [h]
    have step : clob_get (HttpEvent.status 429 "" ::
        (List.replicate k (HttpEvent.status 429 "") ++
          HttpEvent.status 200 body :: rest)) n
        = clob_get (List.replicate k (HttpEvent.status 429 "") ++
          HttpEvent.status 200 body :: rest) (n + 1) := by
      simp [clob_get]
    rw [step, ih (n + 1) body rest]
    have h2 : n + 1 + k = n + (k + 1) := by omega
    rw [h2]

/-- C8 counterexample: a GET whose first two responses are 429 and whose third
succeeds is retried twice — more than the single retry the claim allows. -/
theorem C8_counterexample :
    clob_get [HttpEvent.status 429 "", HttpEvent.status 429 "",
      HttpEvent.status 200 "ok"] 0 = Except.ok ("ok", 2) ∧ ¬(2 ≤ 1) :=
  ⟨rfl, by omega⟩

/-- C8 (amended): on HTTP 429 a GET waits 1 s and retries, and keeps retrying
as long as 429s arrive — the number of retries equals the number of
consecutive 429 responses, with no upper bound; a POST does not retry on 429
but surfaces it as an HTTP error; transport failures are surfaced to the
caller by both. -/
theorem C8_retry_behaviour :
    (∀ (k : ℕ) (body : String) (rest : List HttpEvent),
      clob_get (List.replicate k (HttpEvent.status 429 "") ++
        HttpEvent.status 200 body :: rest) 0 = Except.ok (body, k)) ∧
    (∀ (body : String) (rest : List HttpEvent),
      clob_post (HttpEvent.status 429 body :: rest) = Except.error "HTTP 429") ∧
    (∀ (msg : String) (rest : List HttpEvent) (n : ℕ),
      clob_get (HttpEvent.netError msg :: rest) n = Except.error msg) ∧
    (∀ (msg : String) (rest : List HttpEvent),
      clob_post (HttpEvent.netError msg :: rest) = Except.error msg) := by
  refine ⟨fun k body rest => ?_, fun body rest => rfl, fun msg rest n => rfl,
    fun msg rest => rfl⟩
  simpa using clob_get_replicate_429 k 0 body rest

/-- C1 counterexample: from the spec's own example state — bids
`[(0.40,100),(0.39,50)]`, asks `[(0.50,80)]` — the one-sided payload
`{buys:[(0.41,90)]}` produces a snapshot whose bids are `[(0.41,90)]` but
whose asks are empty, not the retained `[(0.50,80)]` the claim states. -/
theorem C1_counterexample :
    on_book_update
      [{ yes_token_id := "T", no_token_id := "U",
         yes_book := some ⟨"T", "YES", [(2/5, 100), (39/100, 50)], [(1/2, 80)], 0⟩,
         no_book := none }]
      { asset_id := "T", bids := none, asks := none,
        buys := some [(41/100, 90)], sells := none } 5
    = [{ yes_token_id := "T", no_token_id := "U",
         yes_book := some ⟨"T", "YES", [(41/100, 90)], [], 5⟩,
         no_book := none }] ∧
    ([] : List Level) ≠ [(1/2, 80)] :=
  ⟨rfl, by simp⟩

/-- C1 (amended): a streaming book update replaces the token's whole snapshot
with one built from the payload alone — for a payload containing only buys,
the new snapshot's bids are the sorted payload levels and its asks are empty
(the previous snapshot's asks are discarded, not retained). -/
theorem C1_one_sided_replaces_book (m : MarketState) (rest : List MarketState)
    (tid : String) (bs : List Level) (now : ℚ)
    (h1 : tid ≠ "") (h2 : m.yes_token_id = tid) :
    on_book_update (m :: rest) ⟨tid, none, none, some bs, none⟩ now
      = { m with yes_book := some ⟨tid, "YES", sortDescBy bs, [], now⟩ } :: rest := by
  simp [on_book_update, buildBookData, update_book, mkSnapshot, h1, h2,
    Option.orElse, sortAscBy]

/-- C1 witness: the amended statement instantiated at the spec's example. -/
theorem C1_one_sided_replaces_book_witness :
    on_book_update
      [{ yes_token_id := "T", no_token_id := "U",
         yes_book := some ⟨"T", "YES", [(2/5, 100), (39/100, 50)], [(1/2, 80)], 0⟩,
         no_book := none }]
      { asset_id := "T", bids := none, asks := none,
        buys := some [(41/100, 90)], sells := none } 6
    = [{ yes_token_id := "T", no_token_id := "U",
         yes_book := some ⟨"T", "YES", sortDescBy [(41/100, 90)], [], 6⟩,
         no_book := none }] :=
  C1_one_sided_replaces_book
    { yes_token_id := "T", no_token_id := "U",
      yes_book := some ⟨"T", "YES", [(2/5, 100), (39/100, 50)], [(1/2, 80)], 0⟩,
      no_book := none }
    [] "T" [(41/100, 90)] 6 (by simp) rfl

/-- C7: a payload using the `{buys, sells}` field names produces exactly the
same resulting market state as the equivalent `{bids, asks}` payload with the
same levels, for every market list, token and time. -/
theorem C7_buys_sells_equiv_bids_asks (markets : List MarketState)
    (aid : String) (ob oa : Option (List Level)) (now : ℚ) :
    on_book_update markets ⟨aid, none, none, ob, oa⟩ now
      = on_book_update markets ⟨aid, ob, oa, none, none⟩ now := by
  cases ob <;> cases oa <;> rfl

/-- `_should_keep` as a predicate: the code keeps a live quote exactly when
its status is OPEN or PARTIAL, sizes agree to within `1e-6`, the price is
positive, the drift in bps is strictly below the threshold, and the age is at
most `quote_ttl_ms / 1000` (the code replaces only when age strictly exceeds
the TTL). -/
lemma should_keep_iff (th ttl now : ℚ) (ex : OrderRecord) (de : QuoteOrder) :
    should_keep th ttl now ex de = true ↔
      ((ex.status = "OPEN" ∨ ex.status = "PARTIAL") ∧
       |ex.size - de.size| ≤ 1/1000000 ∧ 0 < ex.price ∧
       |ex.price - de.price| / ex.price * 10000 < th ∧
       now - ex.created_at ≤ ttl / 1000) := by
  simp only [should_keep]
  split_ifs with h1 h2 h3 h4 h5
  · simp only [false_iff]; rintro ⟨_, hc, _⟩; linarith
  · simp only [false_iff]; rintro ⟨_, _, hc, _⟩; linarith
  · simp only [false_iff]; rintro ⟨_, _, _, hc, _⟩; linarith
  · simp only [false_iff]; rintro ⟨_, _, _, _, hc⟩; linarith
  · simp only [true_iff]
    exact ⟨h1, by linarith, by linarith, by linarith, by linarith⟩
  · simp only [false_iff]; rintro ⟨hc, _⟩; exact h1 hc

/-- C2 counterexample: a live OPEN order whose age is exactly the quote TTL
(15 s with `quote_ttl_ms = 15000`), with matching size, positive price and
zero drift, is kept by the code (no cancel, no replacement) although the
claim's condition — which requires age strictly below the TTL — is false. -/
theorem C2_counterexample :
    reconcile_existing 5 15000 15
      ⟨"o1", "BUY", 9/20, 10, 0, "OPEN", 0⟩ ⟨"T", "YES", "BUY", 9/20, 10⟩ = [] ∧
    ¬ (((("OPEN" : String) = "OPEN" ∨ ("OPEN" : String) = "PARTIAL") ∧
        |(10 : ℚ) - 10| ≤ 1/1000000 ∧ (0 : ℚ) < 9/20 ∧
        |(9 : ℚ)/20 - 9/20| / (9/20) * 10000 < 5 ∧
        (15 : ℚ) - 0 < 15000 / 1000)) := by
  constructor
  · simp [reconcile_existing, should_keep]
    norm_num
  · rintro ⟨_, _, _, _, hc⟩; norm_num at hc

/-- C2 (amended): a live order is kept (no cancel and no replacement for its
key) iff its status is OPEN or PARTIAL, |live.size − desired.size| ≤ 1e-6,
live.price > 0, the drift |live.price − desired.price|/live.price×10000 is
strictly below the reprice threshold, and its age is at most the quote TTL
(it is replaced only when the age strictly exceeds the TTL); otherwise it is
cancelled and a new order placed.  With threshold 5, live 0.450 vs desired
0.449 (≈22 bps) is replaced; with threshold 30 it is kept. -/
theorem C2_keep_iff (th ttl now : ℚ) (ex : OrderRecord) (de : QuoteOrder) :
    ((reconcile_existing th ttl now ex de = [] ↔
      ((ex.status = "OPEN" ∨ ex.status = "PARTIAL") ∧
       |ex.size - de.size| ≤ 1/1000000 ∧ 0 < ex.price ∧
       |ex.price - de.price| / ex.price * 10000 < th ∧
       now - ex.created_at ≤ ttl / 1000)) ∧
     (reconcile_existing th ttl now ex de = [] ∨
      reconcile_existing th ttl now ex de =
        [QuoteAction.cancel ex.id, QuoteAction.place de])) ∧
    reconcile_existing 5 15000 1
      ⟨"o1", "BUY", 9/20, 10, 0, "OPEN", 0⟩ ⟨"T", "YES", "BUY", 449/1000, 10⟩
      = [QuoteAction.cancel "o1",
         QuoteAction.place ⟨"T", "YES", "BUY", 449/1000, 10⟩] ∧
    reconcile_existing 30 15000 1
      ⟨"o1", "BUY", 9/20, 10, 0, "OPEN", 0⟩ ⟨"T", "YES", "BUY", 449/1000, 10⟩
      = [] := by
  refine ⟨⟨?_, ?_⟩, ?_, ?_⟩
  · rw [← should_keep_iff]
    simp only [reconcile_existing]
    split_ifs with h <;> simp [h]
  · simp only [reconcile_existing]
    split_ifs <;> simp
  · simp [reconcile_existing, should_keep]
    rw [abs_of_pos] <;> norm_num
  · simp [reconcile_existing, should_keep]
    rw [abs_of_pos] <;> norm_num

/-- C9 counterexample: in the claimed scenario (inventory limit 100, YES
position 80, both mids 0.50, `quote_spread_bps` 20) the half-spread the code
computes is `(20/20000) × 0.50 × 1.8 = 0.0009`, not the claimed `0.00045`,
and the resulting YES bid is `0.499` (three-decimal rounding), not the
claimed `0.4996`. -/
theorem C9_counterexample :
    half_spread 20 (1/2) (spread_scale (skew_ratio 80 0 100)) = 9/10000 ∧
    (9/10000 : ℚ) ≠ 45/100000 ∧
    quote_market 20 50 ⟨"Y", "YES", [(49/100, 100)], [(51/100, 100)], 0⟩
      ⟨"N", "NO", [(49/100, 100)], [(51/100, 100)], 0⟩ 80 0 100
      = some ⟨499/1000, 501/1000, 499/1000, 501/1000, 20, 20000/499⟩ ∧
    (499/1000 : ℚ) ≠ 4996/10000 := by
  refine ⟨?_, by norm_num, ?_, by norm_num⟩
  · norm_num [half_spread, spread_scale, skew_ratio]
  · norm_num [quote_market, px3, roundHalfEven, half_spread, spread_scale,
      size_scale, skew_ratio, OrderBookSnapshot.mid, OrderBookSnapshot.best_bid,
      OrderBookSnapshot.best_ask, OrderBookSnapshot.best_bid_size,
      OrderBookSnapshot.best_ask_size]

/-- C9 (amended): for a ready market with inventory limit 100, a YES position
of 80, both mids 0.50 and `quote_spread_bps` 20, the quote generator computes
skew ratio 0.8, half-spread `(20/20000) × 0.50 × 1.8 = 0.0009`, size scale
floored at 0.2, and produces orders priced 0.499 and 0.501 (quote prices
clamped to `[0.01, 0.99]` and rounded to three decimals) with size equal to
the minimum top-of-book size (here 100) times 0.2. -/
theorem C9_quote_numbers :
    skew_ratio 80 0 100 = 4/5 ∧
    half_spread 20 (1/2) (spread_scale (4/5)) = 9/10000 ∧
    size_scale (4/5) = 1/5 ∧
    quote_market 20 50 ⟨"Y", "YES", [(49/100, 100)], [(51/100, 100)], 0⟩
      ⟨"N", "NO", [(49/100, 100)], [(51/100, 100)], 0⟩ 80 0 100
      = some ⟨499/1000, 501/1000, 499/1000, 501/1000, 20, 20000/499⟩ ∧
    (20 : ℚ) = 100 * (1/5) := by
  refine ⟨?_, ?_, ?_, ?_, by norm_num⟩
  · norm_num [skew_ratio]
  · norm_num [half_spread, spread_scale]
  · norm_num [size_scale]
  · norm_num [quote_market, px3, roundHalfEven, half_spread, spread_scale,
      size_scale, skew_ratio, OrderBookSnapshot.mid, OrderBookSnapshot.best_bid,
      OrderBookSnapshot.best_ask, OrderBookSnapshot.best_bid_size,
      OrderBookSnapshot.best_ask_size]

end Yuga
